import Mathlib

/-!
Verification of the voice-transcription daemon (state machine, daemon loop,
strategy parser, token-timing conversion, recording construction) against a
shallow embedding of its Rust sources.

Conventions of the embedding:
* machine integers become `Nat`/`Int` (i32 range checks are explicit where the
  source performs them);
* `&mut self` methods become state-passing functions returning the Rust result
  together with the new state;
* fallible code returns `Except`/`Option`; a failed `assert!`/`unwrap` is an
  explicit `panicked`/`none` outcome;
* values delivered by the outside world (cpal device enumeration, the stream
  callbacks, the whisper library, the clock) are inputs of the functions.
-/

/- ## Sampling strategies (`src/whisper/transcription.rs`) -/

/-- Parsed sampling strategy (`StrategyOpt`).  The Rust `patience` field is an
`f32`; every value this development touches (`0`, `1/2`) is exactly
representable, so it is modelled as `ℚ`. -/
inductive StrategyOpt where
  | greedy (bestOf : Int)
  | beam (beamSize : Int) (patience : ℚ)
deriving DecidableEq, Repr

/-- Parser error type (`StrategyParseError`).  The payloads of the
`ParseIntError`/`ParseFloatError` variants (standard-library error values) are
not modelled; only the variant is. -/
inductive StrategyParseError where
  | unsupported (kind : String)
  | malformed
  | atLeastOne (field : String)
  | parseIntError
  | parseFloatError
deriving DecidableEq, Repr

/-- Display text of each parser error, from its thiserror attribute. -/
def StrategyParseError.message : StrategyParseError → String
  | .unsupported k => "\x27" ++ k ++ "\x27 is not among the supported strategies: \x27greedy\x27, \x27beam\x27"
  | .malformed => "strategy must be of the form \x27qkind\x27 or \x27kind:n\x27"
  | .atLeastOne f => f ++ " must be at least 1"
  | .parseIntError => "error parsing integer"
  | .parseFloatError => "error parsing float"

/-- Nonempty and all ASCII digits. -/
def isDigits (s : List Char) : Bool := !s.isEmpty && s.all (·.isDigit)

/-- Numeric value of a list of ASCII digits. -/
def digitsVal (s : List Char) : Nat := s.foldl (fun a c => 10 * a + (c.toNat - 48)) 0

/-- Rust `str::parse::<i32>`: optional single sign, then one or more ASCII
digits, rejected outside the i32 range. -/
def parseI32 : List Char → Option Int
  | '+' :: t => if isDigits t && decide (digitsVal t ≤ 2 ^ 31 - 1) then some (digitsVal t) else none
  | '-' :: t => if isDigits t && decide (digitsVal t ≤ 2 ^ 31) then some (-(digitsVal t : Int)) else none
  | t => if isDigits t && decide (digitsVal t ≤ 2 ^ 31 - 1) then some (digitsVal t) else none

/-- Core of the decimal parser: digits with an optional point and fraction
digits. -/
def parseDecCore (t : List Char) : Option ℚ :=
  match t.span (fun c => !(c = '.')) with
  | (ip, []) => if isDigits ip then some (digitsVal ip) else none
  | (ip, _ :: fp) =>
    if isDigits ip && isDigits fp then
      some ((digitsVal ip : ℚ) + (digitsVal fp : ℚ) / ((10 : ℚ) ^ fp.length))
    else none

/-- Restricted model of Rust `str::parse::<f32>`: sign, digits, optional point
and fraction digits, with exact rational value.  The full f32 grammar
(exponents, inf/nan) and rounding are outside the model; no claim evaluates the
parser off this sublanguage. -/
def parseF32 : List Char → Option ℚ
  | '+' :: t => parseDecCore t
  | '-' :: t => (parseDecCore t).map (fun q => -q)
  | t => parseDecCore t

/-- Rust `str::split(':')` on a character list; it always yields at least one
part. -/
def splitOnColon : List Char → List (List Char)
  | [] => [[]]
  | c :: t =>
    if c = ':' then [] :: splitOnColon t
    else
      match splitOnColon t with
      | [] => [[c]]
      | p :: ps => (c :: p) :: ps

/-- Kind dispatch of `parse_strategy` (after the first two `parts.next()`
calls): `more` is what remains of the split iterator. -/
def parseStrategyKind (kind : List Char) (n : Option Int) (more : List (List Char)) :
    Except StrategyParseError StrategyOpt :=
  if kind = "greedy".data then
    let n := n.getD 2
    if n < 1 then .error (.atLeastOne "best_of") else .ok (.greedy n)
  else if kind = "beam".data then
    let n := n.getD 10
    if n < 1 then .error (.atLeastOne "beam_size")
    else
      match more.head? with
      | none => .ok (.beam n 0)
      | some t =>
        match parseF32 t with
        | none => .error .parseFloatError
        | some p => .ok (.beam n p)
  else .error (.unsupported (String.mk kind))

/-- Shallow embedding of `parse_strategy` (`whisper/transcription.rs` lines
150-186) on the character list: the numeric argument is parsed before the kind
is matched, exactly as the Rust `?` on `parts.next().map(str::parse)` runs
first. -/
def parseStrategyChars (s : List Char) : Except StrategyParseError StrategyOpt :=
  match splitOnColon s with
  | [] => .error .malformed
  | kind :: rest =>
    match rest.head? with
    | some t =>
      match parseI32 t with
      | none => .error .parseIntError
      | some v => parseStrategyKind kind (some v) (rest.drop 1)
    | none => parseStrategyKind kind none (rest.drop 1)

/-- `parse_strategy` on a string flag. -/
def parse_strategy (s : String) : Except StrategyParseError StrategyOpt :=
  parseStrategyChars s.data

/-- `needle` occurs as a contiguous run inside `hay`. -/
def containsSub (needle hay : List Char) : Bool :=
  hay.tails.any (needle.isPrefixOf ·)

/- ## Token timings (`src/whisper/mod.rs`) -/

/-- A token or sentence with a millisecond time span (`sttx::Timing`): the
constructor in the source receives the values through `try_into` to an
unsigned type, so the fields are `Nat`. -/
structure Timing where
  t0 : Nat
  t1 : Nat
  text : String
deriving DecidableEq, Repr

/-- `is_internal_token` (`whisper/mod.rs` lines 155-157). -/
def is_internal_token (text : String) : Bool :=
  text.startsWith "[_" || (text.startsWith "<|" && text.endsWith "|>")

/-- Conversion of one kept token in `Whisper::transcribe_audio`
(`whisper/mod.rs` lines 93-103): the library ticks are scaled by 10 and
asserted non-negative; a failed assertion panics the worker, modelled as
`none`. -/
def tokenTiming (tick0 tick1 : Int) (text : String) : Option Timing :=
  let t0 := 10 * tick0
  let t1 := 10 * tick1
  if 0 ≤ t0 ∧ 0 ≤ t1 then some ⟨t0.toNat, t1.toNat, text⟩ else none

/-- The per-segment token walk of `transcribe_audio`: internal tokens are
skipped, every other token is converted in order; a failed assertion aborts
the run. -/
def transcribeTokens : List (String × Int × Int) → Option (List Timing)
  | [] => some []
  | (text, a, b) :: rest =>
    if is_internal_token text then transcribeTokens rest
    else
      match tokenTiming a b text with
      | none => none
      | some t => (transcribeTokens rest).map (t :: ·)

/- ## Sessions, modes and the recording state (`src/app/state.rs`,
`src/audio/recording.rs`) -/

/-- Model identifiers (`Model` in `whisper/transcription.rs`). -/
inductive WModel where
  | base | small | medium | large
deriving DecidableEq, Repr

instance : Inhabited WModel := ⟨.base⟩

/-- `Model::filename`. -/
def WModel.filename : WModel → String
  | .base => "ggml-base.en.bin"
  | .small => "ggml-small.en.bin"
  | .medium => "ggml-medium.bin"
  | .large => "ggml-large-v3-turbo.bin"

/-- Client-supplied recording parameters (`Session` in `audio/recording.rs`
lines 197-203).  `sample_rate` is a u32. -/
structure Session where
  input_device : Option String
  sample_rate : Option Nat
  prompt : Option String
  model : Option WModel
deriving DecidableEq, Repr

/-- Response modes (`Mode` in `app/state.rs`, the latest minimal set); the
Rust `#[default]` is `LiveTyping`. -/
inductive Mode where
  | standard
  | liveTyping
deriving DecidableEq, Repr

instance : Inhabited Mode := ⟨.liveTyping⟩

/-- The audio half of the recording state (`Audio` in `app/state.rs`). -/
inductive Audio where
  | idle
  | started (s : Session)
  | stopped (s : Session)
deriving DecidableEq, Repr

/-- `RecordingState` (`app/state.rs` lines 21-25) with its derived
`Default`. -/
structure RecordingState where
  audio : Audio := .idle
  mode : Mode := .liveTyping
deriving DecidableEq, Repr

instance : Inhabited RecordingState := ⟨{}⟩

/-- `RecordingState::running`. -/
def RecordingState.running (st : RecordingState) : Bool :=
  match st.audio with
  | .started _ => true
  | _ => false

/-- `RecordingState::start` (`app/state.rs` lines 73-81): the Rust bool
result, paired with the mutated state. -/
def RecordingState.start (st : RecordingState) (session : Session) :
    Bool × RecordingState :=
  match st.audio with
  | .idle | .stopped _ => (true, { st with audio := .started session })
  | .started _ => (false, st)

/-- `RecordingState::stop` (`app/state.rs` lines 83-91). -/
def RecordingState.stop (st : RecordingState) : Bool × RecordingState :=
  match st.audio with
  | .started s => (true, { st with audio := .stopped s })
  | _ => (false, st)

/-- `RecordingState::change_mode` (`app/state.rs` lines 93-100). -/
def RecordingState.change_mode (st : RecordingState) (mode : Mode) :
    Bool × RecordingState :=
  if st.mode = mode then (false, st) else (true, { st with mode := mode })

/- ## Commands and responses (`src/app/command.rs`, `src/app/response.rs`) -/

/-- Daemon responses (`Response` in `app/response.rs`).  `ack` carries epoch
milliseconds (u128), `exit` the process exit code (u8). -/
inductive Response where
  | ack (epochMs : Nat)
  | nil
  | error (message : String)
  | exit (code : Nat)
  | newMode (mode : Mode)
  | transcription (content : Option String) (mode : Mode)
deriving DecidableEq, Repr

/-- Daemon commands (`Plumbing` in `app/command.rs`).  The work-in-progress
`Transcribe` variant is omitted: `RecordingState::handle` in `app/state.rs`
has no arm for it, no production transport emits it and the claims never
mention it. -/
inductive Plumbing where
  | start (session : Session)
  | stop
  | reset
  | mode (m : Mode)
  | respond (r : Response)
deriving DecidableEq, Repr

/-- `Plumbing::as_response` (`app/command.rs` lines 48-59). -/
def Plumbing.as_response : Plumbing → Option Response
  | .mode m => some (.newMode m)
  | .respond r => some r
  | _ => none

/-- `RecordingState::handle` (`app/state.rs` lines 31-45): it performs the
transition itself and returns whether the command was accepted. -/
def RecordingState.handle (st : RecordingState) (cmd : Plumbing) :
    Bool × RecordingState :=
  match cmd with
  | .start session => st.start session
  | .stop => st.stop
  | .mode m => if st.running then (false, st) else st.change_mode m
  | .reset | .respond _ => (true, st)

/-- One iteration of `CmdStream::run_state_machine` (`app/command.rs` lines
73-114), verbatim: `handle` is called first (already performing the
transition), then the transition methods are applied a second time on the
mutated state; the function returns the `(command, Option state)` pair the
iterator yields to the daemon loop together with the state left behind. -/
def runStateMachineStep (st : RecordingState) (cmd : Plumbing) :
    (Plumbing × Option RecordingState) × RecordingState :=
  let initial := st
  let h := st.handle cmd
  if h.1 then
    let t :=
      match cmd with
      | .start session => h.2.start session
      | .stop => h.2.stop
      | .mode m => if h.2.running then (false, h.2) else h.2.change_mode m
      | _ => (false, h.2)
    if t.1 then ((cmd, some t.2), t.2)
    else
      match cmd with
      | .reset | .respond _ => ((cmd, some initial), t.2)
      | _ => ((cmd, none), t.2)
  else ((cmd, none), h.2)

/- ## Recording construction (`src/audio/recording.rs`) -/

deriving instance DecidableEq for Except

/-- The cpal sample formats the model distinguishes (a representative subset;
the source only tests equality with `F32`). -/
inductive SampleFormat where
  | f32 | i16 | u16 | i32 | f64
deriving DecidableEq, Repr

/-- Debug rendering of a sample format, for the error display. -/
def SampleFormat.debugName : SampleFormat → String
  | .f32 => "F32"
  | .i16 => "I16"
  | .u16 => "U16"
  | .i32 => "I32"
  | .f64 => "F64"

/-- One supported input config of a device (cpal
`SupportedStreamConfigRange`). -/
structure SupportedConfig where
  minRate : Nat
  maxRate : Nat
  format : SampleFormat
  channels : Nat
deriving DecidableEq, Repr

/-- A capture device as enumeration sees it: `name()` may fail (the device is
then dropped by the filter) and `supported_input_configs()` may fail (its
configs are then dropped). -/
structure DeviceEntry where
  name : Option String
  configs : Except Unit (List SupportedConfig)
deriving DecidableEq, Repr

/-- The ambient audio environment: what the process-wide cpal enumeration and
the per-session threads would deliver.  `devices` is `input_devices()` (which
may fail with a `DevicesError` message), `sinkResult` what the sink reduction
thread returns on join (`Except.error` = its panic message), and
`readResult`/`playResult` the outcomes of `read_from_device` and
`Stream::play`.  Captured samples are f32 values, carried as `ℚ`; no claim
computes on them. -/
structure AudioEnv where
  devices : Except String (List DeviceEntry)
  sinkResult : Except String (List ℚ)
  readResult : Except String Unit
  playResult : Except String Unit
deriving DecidableEq, Repr

/-- `SessionError` (`audio/recording.rs` lines 188-195). -/
inductive SessionError where
  | device (msg : String)
  | parameters (msg : String)
deriving DecidableEq, Repr

/-- Display text of a `SessionError`. -/
def SessionError.message : SessionError → String
  | .device m => "audio device error: " ++ m
  | .parameters m => "recording session parameters error: " ++ m

/-- The recording error type (`Error` in `audio/recording.rs` lines
21-46). -/
inductive RecordingError where
  | noSupportedConfigs
  | invalidChannelCount (n : Nat)
  | invalidSampleFormat (f : SampleFormat)
  | playStream (msg : String)
  | session (e : SessionError)
  | processErr (msg : String)
  | sync
  | threadPanic (msg : String)
deriving DecidableEq, Repr

/-- Display text of a recording error, from the thiserror attributes (the
`ThreadPanic` attribute really is the literal placeholder text and drops its
payload). -/
def RecordingError.message : RecordingError → String
  | .noSupportedConfigs => "no supported configs found"
  | .invalidChannelCount n => "unsupported channel count: " ++ toString n
  | .invalidSampleFormat f => "invalid sample format: " ++ f.debugName
  | .playStream m => "play stream error: " ++ m
  | .session e => "session error: " ++ e.message
  | .processErr m => "process error: " ++ m
  | .sync => "failed to join recording thread"
  | .threadPanic _ => "try to eliminate this"

/-- The `(device, config)` choice after `with_sample_rate(min_sample_rate)`,
as the capture thread receives it (the device handle itself carries no
observable data in the model). -/
structure ChosenConfig where
  format : SampleFormat
  channels : Nat
  sampleRate : Nat
deriving DecidableEq, Repr

/-- `Session::supported_configs` (`audio/recording.rs` lines 236-280):
devices are filtered by name-contains (devices whose `name()` fails are
dropped), per-device config-enumeration errors are dropped by the
`filter_map`, and a config is kept when its rate range straddles the desired
rate — the session hint, or `max(min_rate, 16000)` without one; the selected
sample rate is the range minimum. -/
def Session.supported_configs (env : AudioEnv) (s : Session) :
    Except SessionError (List ChosenConfig) :=
  match env.devices with
  | .error e => .error (.device e)
  | .ok ds =>
    let named := ds.filter (fun d =>
      match d.name with
      | none => false
      | some nm =>
        match s.input_device with
        | none => true
        | some pat => containsSub pat.data nm.data)
    let cfgs := named.foldr (fun d acc =>
      (match d.configs with | .error _ => [] | .ok cs => cs) ++ acc) []
    .ok (cfgs.filterMap (fun c =>
      let rate := match s.sample_rate with
        | some r => r
        | none => max c.minRate 16000
      if c.minRate > rate || c.maxRate < rate then none
      else some { format := c.format, channels := c.channels, sampleRate := c.minRate }))

/-- The stream config recovered on stop (cpal `StreamConfig`). -/
structure StreamConfig where
  channels : Nat
  sampleRate : Nat
deriving DecidableEq, Repr

/-- Result of the capture thread spawned by `Recording::controlled`
(`audio/recording.rs` lines 146-177): config resolution, the
`NoSupportedConfigs` failure, the f32 format check and the channel dispatch
all happen inside this thread, not in `controlled` itself. -/
def captureThreadResult (env : AudioEnv) (s : Session) :
    Except RecordingError StreamConfig :=
  match Session.supported_configs env s with
  | .error e => .error (.session e)
  | .ok cfgs =>
    match cfgs.head? with
    | none => .error .noSupportedConfigs
    | some c =>
      match c.format with
      | .f32 =>
        if c.channels = 1 ∨ c.channels = 2 then
          match env.readResult with
          | .error m => .error (.processErr m)
          | .ok _ =>
            match env.playResult with
            | .error m => .error (.playStream m)
            | .ok _ => .ok { channels := c.channels, sampleRate := c.sampleRate }
        else .error (.invalidChannelCount c.channels)
      | f => .error (.invalidSampleFormat f)

/-- The `Recording` handle: its two join handles, represented by the values
they will deliver when joined. -/
structure Recording where
  threadResult : Except RecordingError StreamConfig
  sinkResult : Except String (List ℚ)
deriving DecidableEq, Repr

/-- `Recording::controlled` (`audio/recording.rs` lines 132-185): it starts
the sink node, spawns the capture thread and returns `Ok` unconditionally;
every failure is deferred to the thread results inside the handle. -/
def Recording.controlled (env : AudioEnv) (s : Session) :
    Except RecordingError Recording :=
  .ok { threadResult := captureThreadResult env s, sinkResult := env.sinkResult }

/-- `Recording::stop` (`audio/recording.rs` lines 72-82): join the capture
thread and propagate its error, then join the sink thread, whose panic
becomes `ThreadPanic`. -/
def Recording.stopJoin (r : Recording) :
    Except RecordingError (StreamConfig × List ℚ) :=
  match r.threadResult with
  | .error e => .error e
  | .ok cfg =>
    match r.sinkResult with
    | .error msg => .error (.threadPanic msg)
    | .ok audio => .ok (cfg, audio)

/- ## The daemon loop (`src/app/mod.rs`, entry in `src/main.rs`) -/

/-- Daemon loop environment: the audio environment and the clock value used
for `Ack`.  Modelling the clock as one constant is sound here — no claim
constrains distinct timestamps. -/
structure LoopEnv where
  audio : AudioEnv
  now : Nat
deriving DecidableEq, Repr

/-- How `run_loop` returns: `done b` is `Ok(b)` (`b` = should-reinitialize),
`failed` is `Err(_)` from a `?` inside the loop, `panicked` a failed
`assert!` or `unwrap`. -/
inductive LoopOutcome where
  | done (reinit : Bool)
  | failed
  | panicked
deriving DecidableEq, Repr

/-- The `Stop` arm's handling of one worker result (`app/mod.rs` lines
176-201): post-process and answer with the content on success, answer
`content: None` on failure.  `pr` is the post-processor
(`Transcription::process`, delegated to the external `sttx` crate, hence a
parameter). -/
def stopArmRespond (pr : List Timing → Option Timing)
    (tres : Except String (List Timing)) (mode : Mode) : Response :=
  match tres with
  | .ok ts => .transcription ((pr ts).map Timing.text) mode
  | .error _ => .transcription none mode

/-- Prepend one sent response to a loop continuation. -/
def consR (r : Response) (p : List Response × LoopOutcome) :
    List Response × LoopOutcome :=
  (r :: p.1, p.2)

/-- `Daemon::run_loop` (`app/mod.rs` lines 86-288) over a finite command list
(the commands channel, closing at the list end).  `rec` is the owned
recording, `results` the stream of worker results, `pr` the external
post-processor.  The responses channel is assumed open (every claim's
scenario keeps it open).  The `exit_code` binding of line 97 is immutable and
`0`, so the channel-closed exit sends `Exit(0)`; the `Reset` arm returns
`Ok(true)` at once.  The job built in the `Stop` arm always succeeds (every
builder field is set) and its content does not influence which worker result
arrives, so it is not materialised. -/
def runLoop (pr : List Timing → Option Timing) (env : LoopEnv) :
    RecordingState → Option Recording → List (Except String (List Timing)) →
    List Plumbing → List Response × LoopOutcome
  | _, _, _, [] => ([Response.exit 0], .done false)
  | st, rec, results, c :: rest =>
    match (runStateMachineStep st c).1.2 with
    | none => consR .nil (runLoop pr env (runStateMachineStep st c).2 rec results rest)
    | some ns =>
      match c with
      | .start session =>
        if ns.running = false then ([], .panicked)
        else
          match Recording.controlled env.audio session with
          | .error e =>
            consR (.error e.message)
              (runLoop pr env (runStateMachineStep st c).2 rec results rest)
          | .ok newRec =>
            consR (.ack env.now)
              (runLoop pr env (runStateMachineStep st c).2 (some newRec) results rest)
      | .stop =>
        if ns.running then ([], .panicked)
        else
          match rec with
          | none => ([], .panicked)
          | some r =>
            match r.stopJoin with
            | .error _ => ([], .failed)
            | .ok _ =>
              match results with
              | [] => ([], .failed)
              | tres :: more =>
                consR (stopArmRespond pr tres ns.mode)
                  (runLoop pr env (runStateMachineStep st c).2 none more rest)
      | .reset => ([], .done true)
      | .mode _ =>
        consR (.ack env.now) (runLoop pr env (runStateMachineStep st c).2 rec results rest)
      | .respond r =>
        consR r (runLoop pr env (runStateMachineStep st c).2 rec results rest)

/-- The entry function (`main.rs`): a `should_reset = true` outcome from the
daemon becomes `std::process::exit(1)`; a clean return exits 0. -/
def processExitStatus (shouldReset : Bool) : Nat := if shouldReset then 1 else 0

/- ## Concrete instances used by the closed theorems -/

/-- A concrete session (the dummy of the state tests). -/
def S0 : Session :=
  { input_device := some "dummy", sample_rate := some 48000,
    prompt := some "p", model := some .small }

/-- An audio environment whose enumeration finds no input device at all. -/
def E0 : AudioEnv :=
  { devices := .ok [], sinkResult := .ok [],
    readResult := .ok (), playResult := .ok () }

/-- Loop environment over `E0` with the clock at 0. -/
def env0 : LoopEnv := { audio := E0, now := 0 }

/-- A trivial post-processor instance. -/
def pr0 : List Timing → Option Timing := fun _ => none

/- ## Helper lemmas -/

/-- Whether an `Except` holds a success value. -/
def exceptIsOk : Except ε α → Bool
  | .ok _ => true
  | .error _ => false

/-- `splitOnColon` never yields an empty list of parts. -/
theorem splitOnColon_ne_nil (s : List Char) : splitOnColon s ≠ [] := by
  match s with
  | [] => simp [splitOnColon]
  | c :: t =>
    by_cases hc : c = ':'
    · simp [splitOnColon, hc]
    · simp only [splitOnColon, if_neg hc]
      cases h : splitOnColon t <;> simp

/-- Splitting a list that opens with a colon-free prefix peels that prefix
off as the first part. -/
theorem splitOnColon_append (xs ys : List Char) (h : (':' : Char) ∉ xs) :
    splitOnColon (xs ++ ':' :: ys) = xs :: splitOnColon ys := by
  induction xs with
  | nil => simp [splitOnColon]
  | cons c t ih =>
    have hc : ¬(c = ':') := fun e => h (by simp [e])
    have ht : (':' : Char) ∉ t := fun m => h (List.mem_cons_of_mem _ m)
    simp only [List.cons_append, splitOnColon, if_neg hc]
    rw [show t.append (':' :: ys) = t ++ (':' :: ys) from rfl, ih ht]

/- ## Claim theorems -/

/-- C2. `RecordingState::handle` implements exactly the transition table:
`Start(S)` is accepted iff the audio state is Idle or Stopped and moves it to
`Started(S)`; `Stop` is accepted iff `Started(S)` and moves to `Stopped(S)`
with the same session; `Mode(m)` is accepted iff not running and `m` differs
from the current mode, setting `mode := m`; `Reset` and `Respond` are always
accepted and leave the state unchanged; and every rejected command (in
particular a second `Start` while running or a second `Stop`) leaves the
whole state unchanged. -/
theorem c2_handle_matches_transition_table
    (st : RecordingState) (session : Session) (m : Mode) (r : Response) :
    (st.handle (.start session) =
      match st.audio with
      | .started _ => (false, st)
      | _ => (true, { st with audio := .started session })) ∧
    (st.handle .stop =
      match st.audio with
      | .started s => (true, { st with audio := .stopped s })
      | _ => (false, st)) ∧
    (st.handle (.mode m) =
      if st.running = false ∧ ¬st.mode = m then (true, { st with mode := m })
      else (false, st)) ∧
    st.handle .reset = (true, st) ∧
    st.handle (.respond r) = (true, st) ∧
    (∀ cmd : Plumbing, (st.handle cmd).1 = false → (st.handle cmd).2 = st) := by
  obtain ⟨a, mo⟩ := st
  refine ⟨?_, ?_, ?_, rfl, rfl, ?_⟩
  · cases a <;> rfl
  · cases a <;> rfl
  · cases a <;>
      by_cases h : mo = m <;>
        simp [RecordingState.handle, RecordingState.running,
          RecordingState.change_mode, h]
  · intro cmd hc
    cases cmd with
    | start s2 => cases a <;> simp_all [RecordingState.handle, RecordingState.start]
    | stop => cases a <;> simp_all [RecordingState.handle, RecordingState.stop]
    | mode m2 =>
      cases a <;>
        by_cases h : mo = m2 <;>
          simp_all [RecordingState.handle, RecordingState.running,
            RecordingState.change_mode]
    | reset => simp [RecordingState.handle] at hc
    | respond r2 => simp [RecordingState.handle] at hc

/-- Closed instance of the C2 table: the default state, a rejected `Stop` and
an always-accepted `Reset`, read off the table theorem at concrete inputs. -/
theorem c2_handle_table_witness :
    RecordingState.handle default .reset = (true, default) ∧
    (RecordingState.handle default Plumbing.stop).2 = default :=
  ⟨(c2_handle_matches_transition_table default S0 Mode.standard Response.nil).2.2.2.1,
   (c2_handle_matches_transition_table default S0 Mode.standard
      Response.nil).2.2.2.2.2 Plumbing.stop (by decide)⟩

/-- C1.  The state machine accepts `Start` from Idle, yet the daemon loop
answers `Nil` and never sends `Ack`: `run_state_machine` applies the
transition a second time after `handle` already performed it, reports no
transition, and so yields `None` to the loop, whose `Start` arm is
unreachable. -/
theorem c1_accepted_start_answered_nil :
    (RecordingState.handle default (.start S0)).1 = true ∧
    runLoop pr0 env0 default none [] [.start S0] =
      ([.nil, .exit 0], .done false) :=
  ⟨by decide, by decide⟩

/-- C3.  The state machine accepts `Mode(standard)` while idle and
`as_response` maps the command to `NewMode(standard)`, but the daemon loop
answers `Nil`: the double-applied transition makes `run_state_machine` yield
`None`, and even the loop's (unreachable) `Mode` arm sends `Response::ack()`,
not `NewMode`. -/
theorem c3_accepted_mode_answered_nil :
    (RecordingState.handle default (.mode .standard)).1 = true ∧
    Plumbing.as_response (.mode .standard) = some (.newMode .standard) ∧
    runLoop pr0 env0 default none [] [.mode .standard] =
      ([.nil, .exit 0], .done false) :=
  ⟨by decide, rfl, by decide⟩

/-- C4 counterexample: a `Reset` makes the loop return `Ok(true)` at once,
with no response at all — in particular no `Exit` response reaches the
client. -/
theorem c4_counterexample_reset_emits_no_exit :
    runLoop pr0 env0 default none [] [.reset] = ([], .done true) ∧
    decide (Response.exit 1 ∈ (runLoop pr0 env0 default none [] [.reset]).1)
      = false :=
  ⟨by decide, by decide⟩

/-- C4 (amended).  `Reset` returns the should-reinitialize outcome
immediately and emits nothing on the responses channel; the `Exit(exit_code)`
send happens only when the commands channel closes, and then carries 0; the
entry function still turns the `true` outcome into process exit status 1. -/
theorem c4_reset_returns_reinit_without_exit_response
    (pr : List Timing → Option Timing) (env : LoopEnv) (st : RecordingState)
    (rec : Option Recording) (results : List (Except String (List Timing)))
    (rest : List Plumbing) :
    runLoop pr env st rec results (.reset :: rest) = ([], .done true) ∧
    runLoop pr env st rec results [] = ([Response.exit 0], .done false) ∧
    processExitStatus true = 1 :=
  ⟨rfl, rfl, rfl⟩

/-- C5 counterexample: in an environment with no capture device at all, a
`Start` from Idle is answered `Nil` (not `Error`), the state machine is left
in `Started(S)` (not Idle), and the immediately following `Start` is
rejected. -/
theorem c5_counterexample_failed_start_not_idle :
    Session.supported_configs E0 S0 = .ok [] ∧
    runLoop pr0 env0 default none [] [.start S0, .start S0] =
      ([.nil, .nil, .exit 0], .done false) ∧
    (runStateMachineStep default (.start S0)).2.audio = .started S0 :=
  ⟨by decide, by decide, by decide⟩

/-- C5 (amended).  On a `Start` command the daemon never emits an `Error`
response, whatever the audio environment: the accepted `Start` is answered
`Nil` (the loop's recording-construction arm is unreachable), the state
machine still moves to `Started(session)` so the next `Start` is rejected,
and `Recording::controlled` returns `Ok` in every environment anyway, so the
device failure could not surface at `Start` time even in that arm. -/
theorem c5_start_failure_path_unreachable
    (pr : List Timing → Option Timing) (env : LoopEnv) (session : Session) :
    runLoop pr env default none [] [.start session, .start session] =
      ([.nil, .nil, .exit 0], .done false) ∧
    (runStateMachineStep default (.start session)).2.audio = .started session ∧
    (∀ envA : AudioEnv, exceptIsOk (Recording.controlled envA session) = true) :=
  ⟨rfl, rfl, fun _ => rfl⟩

/-- C6 counterexample: with no capture device, no `(device, config)` pair
matches the session, yet `Recording::controlled` still returns `Ok`; the
`NoSupportedConfigs` failure appears only when the handle is stopped and its
capture thread joined. -/
theorem c6_counterexample_controlled_returns_ok :
    Session.supported_configs E0 S0 = .ok [] ∧
    Recording.controlled E0 S0 =
      .ok { threadResult := .error .noSupportedConfigs, sinkResult := .ok [] } ∧
    decide (Recording.controlled E0 S0 = .error .noSupportedConfigs) = false ∧
    Recording.stopJoin
        { threadResult := .error .noSupportedConfigs, sinkResult := .ok [] } =
      .error .noSupportedConfigs :=
  ⟨by decide, by decide, by decide, by decide⟩

/-- C6 (amended).  `Recording::controlled` always returns `Ok`; the
`NoSupportedConfigs` and `InvalidSampleFormat` checks run inside the spawned
capture thread, so those failures surface only from `stop()`: with no
matching pair `stop()` returns `NoSupportedConfigs`, and with a first
matching pair of non-f32 sample format it returns `InvalidSampleFormat`. -/
theorem c6_controlled_defers_failures_to_stop (env : AudioEnv) (s : Session) :
    Recording.controlled env s =
      .ok { threadResult := captureThreadResult env s,
            sinkResult := env.sinkResult } ∧
    (Session.supported_configs env s = .ok [] →
      Recording.stopJoin
          { threadResult := captureThreadResult env s,
            sinkResult := env.sinkResult } =
        .error .noSupportedConfigs) ∧
    (∀ (c : ChosenConfig) (cs : List ChosenConfig),
      Session.supported_configs env s = .ok (c :: cs) →
      ¬c.format = .f32 →
      Recording.stopJoin
          { threadResult := captureThreadResult env s,
            sinkResult := env.sinkResult } =
        .error (.invalidSampleFormat c.format)) := by
  refine ⟨rfl, ?_, ?_⟩
  · intro h
    simp [Recording.stopJoin, captureThreadResult, h]
  · intro c cs h hf
    cases cf : c.format <;>
      simp_all [Recording.stopJoin, captureThreadResult, h]

/-- Closed instance of C6 at the deviceless environment, read off the
deferred-failure theorem. -/
theorem c6_controlled_defers_witness :
    Recording.stopJoin
        { threadResult := captureThreadResult E0 S0,
          sinkResult := E0.sinkResult } =
      .error .noSupportedConfigs :=
  (c6_controlled_defers_failures_to_stop E0 S0).2.1 (by decide)

/-- Whenever the loop reaches the channel-closed exit (`Ok(false)`), its
response stream ends with `Exit(0)`: the `exit_code` binding is immutable,
so no per-command failure can raise the code.  (The early returns — `Reset`,
a `?` failure, a panic — emit no `Exit` at all.) -/
theorem runLoop_done_false_ends_exit_zero
    (pr : List Timing → Option Timing) (env : LoopEnv) :
    ∀ (cmds : List Plumbing) (st : RecordingState) (rec : Option Recording)
      (results : List (Except String (List Timing))),
      (runLoop pr env st rec results cmds).2 = .done false →
      ∃ init, (runLoop pr env st rec results cmds).1 =
        init ++ [Response.exit 0] := by
  intro cmds
  induction cmds with
  | nil => exact fun _ _ _ _ => ⟨[], rfl⟩
  | cons c rest ih =>
    intro st rec results h
    rw [runLoop] at h ⊢
    generalize hs : (runStateMachineStep st c).1.2 = yielded at h ⊢
    cases yielded with
    | none =>
      obtain ⟨init, e⟩ := ih _ _ _ h
      exact ⟨.nil :: init, by simp [consR, e]⟩
    | some ns =>
      cases c with
      | start session =>
        dsimp only [] at h ⊢
        by_cases hr : ns.running = false
        · rw [if_pos hr] at h
          exact absurd h (by simp)
        · rw [if_neg hr] at h ⊢
          obtain ⟨init, e⟩ := ih _ _ _ (by simpa [Recording.controlled, consR] using h)
          exact ⟨.ack env.now :: init, by simp [Recording.controlled, consR, e]⟩
      | stop =>
        dsimp only [] at h ⊢
        by_cases hr : ns.running
        · rw [if_pos hr] at h
          exact absurd h (by simp)
        · rw [if_neg hr] at h ⊢
          cases rec with
          | none => exact absurd h (by simp)
          | some r =>
            dsimp only [] at h ⊢
            revert h
            cases hj : r.stopJoin with
            | error e => intro h; exact absurd h (by simp)
            | ok v =>
              intro h
              cases results with
              | nil => exact absurd h (by simp)
              | cons tres more =>
                dsimp only [] at h ⊢
                obtain ⟨init, e⟩ := ih _ _ _ h
                exact ⟨stopArmRespond pr tres ns.mode :: init, by simp [consR, e]⟩
      | reset =>
        dsimp only [] at h
        exact absurd h (by simp)
      | mode m =>
        dsimp only [] at h ⊢
        obtain ⟨init, e⟩ := ih _ _ _ h
        exact ⟨.ack env.now :: init, by simp [consR, e]⟩
      | respond r =>
        dsimp only [] at h ⊢
        obtain ⟨init, e⟩ := ih _ _ _ h
        exact ⟨r :: init, by simp [consR, e]⟩

/-- C7 counterexample: with a failing worker result queued, the scenario
`Start` then `Stop` produces no `Transcription` response at all (both
accepted commands are answered `Nil`, so no job ever reaches the worker),
and the `Exit` emitted when the commands channel closes carries 0, not a
non-zero code. -/
theorem c7_counterexample_exit_code_stays_zero :
    runLoop pr0 env0 default none [.error "boom"] [.start S0, .stop] =
      ([.nil, .nil, .exit 0], .done false) ∧
    decide (Response.transcription none Mode.liveTyping ∈
      (runLoop pr0 env0 default none [.error "boom"] [.start S0, .stop]).1)
      = false ∧
    decide (Response.exit 1 ∈
      (runLoop pr0 env0 default none [.error "boom"] [.start S0, .stop]).1)
      = false :=
  ⟨by decide, by decide, by decide⟩

/-- C7 (amended).  The `Stop` arm's error case answers
`Transcription(content: None, mode)`, but no exit flag exists to set: the
`exit_code` binding is immutable (the `exit_code = 1` assignment in the
source is commented out), so whenever the loop reaches its channel-closed
exit the final response is `Exit(0)` — never a non-zero code.  (The arm
itself is unreachable in the composed loop, see C1.) -/
theorem c7_worker_error_empty_transcription_exit_zero :
    (∀ (pr : List Timing → Option Timing) (e : String) (m : Mode),
      stopArmRespond pr (.error e) m = .transcription none m) ∧
    (∀ (pr : List Timing → Option Timing) (env : LoopEnv)
       (st : RecordingState) (rec : Option Recording)
       (results : List (Except String (List Timing))) (cmds : List Plumbing),
      (runLoop pr env st rec results cmds).2 = .done false →
      ∃ init, (runLoop pr env st rec results cmds).1 =
        init ++ [Response.exit 0]) :=
  ⟨fun _ _ _ => rfl,
   fun pr env st rec results cmds h =>
     runLoop_done_false_ends_exit_zero pr env cmds st rec results h⟩

/-- Closed instance of C7: the trivial run ends in `Exit(0)`, read off the
exit-code theorem. -/
theorem c7_exit_zero_witness :
    ∃ init, (runLoop pr0 env0 default none [] []).1 =
      init ++ [Response.exit 0] :=
  c7_worker_error_empty_transcription_exit_zero.2 pr0 env0 default none [] []
    (by decide)

/-- C8 counterexample: `parse_strategy "beam"` defaults `beam_size` to 10
(as the parser's own unit test asserts), not to 5. -/
theorem c8_counterexample_beam_defaults_to_ten :
    parse_strategy "beam" = .ok (.beam 10 0) ∧
    decide (parse_strategy "beam" = .ok (.beam 5 0)) = false :=
  ⟨by decide, by decide⟩

/-- C8 (amended).  `parse_strategy` maps `"greedy"` to `Greedy{best_of = 2}`
and `"beam"` to `Beam{beam_size = 10, patience = 0}`; every input whose kind
(first colon-separated segment) is neither `"greedy"` nor `"beam"` fails with
a typed error, as does a numeric argument below 1, and in the latter case
(kind `"greedy"` or `"beam"`, parsed N less than 1) the error message
contains "at least 1". -/
theorem c8_parse_strategy_defaults_and_errors :
    parse_strategy "greedy" = .ok (.greedy 2) ∧
    parse_strategy "beam" = .ok (.beam 10 0) ∧
    (∀ (s k : List Char) (rest : List (List Char)),
      splitOnColon s = k :: rest → ¬k = "greedy".data → ¬k = "beam".data →
      exceptIsOk (parseStrategyChars s) = false) ∧
    (∀ (s k : List Char) (rest : List (List Char)) (t : List Char) (n : Int),
      splitOnColon s = k :: rest → rest.head? = some t → parseI32 t = some n →
      n < 1 → (k = "greedy".data ∨ k = "beam".data) →
      ∃ e, parseStrategyChars s = .error e ∧
        containsSub "at least 1".data e.message.data = true) := by
  refine ⟨by decide, by decide, ?_, ?_⟩
  · intro s k rest hsplit hk hb
    simp only [parseStrategyChars, hsplit]
    cases hh : rest.head? with
    | none => simp [parseStrategyKind, hk, hb, exceptIsOk]
    | some t =>
      cases hp : parseI32 t with
      | none => simp [hp, exceptIsOk]
      | some v => simp [hp, parseStrategyKind, hk, hb, exceptIsOk]
  · intro s k rest t n hsplit hhead hparse hn hkind
    simp only [parseStrategyChars, hsplit, hhead, hparse]
    rcases hkind with hk | hk <;> subst hk
    · refine ⟨.atLeastOne "best_of", ?_, by decide⟩
      simp [parseStrategyKind, hn]
    · refine ⟨.atLeastOne "beam_size", ?_, by decide⟩
      have hne : ¬("beam".data = "greedy".data) := by decide
      simp [parseStrategyKind, hne, hn]

/-- Closed instance of C8: an unsupported kind is rejected, and `"beam:0"`
fails with a message containing "at least 1"; both read off the parser
theorem. -/
theorem c8_parse_strategy_witness :
    exceptIsOk (parseStrategyChars "berm".data) = false ∧
    ∃ e, parseStrategyChars "beam:0".data = .error e ∧
      containsSub "at least 1".data e.message.data = true :=
  ⟨c8_parse_strategy_defaults_and_errors.2.2.1 "berm".data "berm".data []
     (by decide) (by decide) (by decide),
   c8_parse_strategy_defaults_and_errors.2.2.2 "beam:0".data "beam".data
     ["0".data] "0".data 0 (by decide) (by decide) (by decide) (by decide)
     (Or.inr (by decide))⟩

/-- C9 counterexample: a token whose library ticks arrive out of order,
`(2, 1)`, is emitted as `Timing(20, 10)` — the conversion does not enforce
`t0 ≤ t1`. -/
theorem c9_counterexample_unordered_ticks :
    transcribeTokens [("x", 2, 1)] = some [⟨20, 10, "x"⟩] ∧
    decide ((20 : Nat) ≤ 10) = false :=
  ⟨by decide, by decide⟩

/-- C9 (amended).  Every emitted Timing satisfies `t0 = 10·a` and
`t1 = 10·b` and is non-negative (the source asserts non-negativity, and a
token is only emitted when the assertion holds, forcing `0 ≤ a` and
`0 ≤ b`); but `t0 ≤ t1` holds exactly when `a ≤ b`, which the code does not
enforce. -/
theorem c9_token_timing_scaling (a b : Int) (text : String) :
    (∀ t : Timing, tokenTiming a b text = some t →
      (t.t0 : Int) = 10 * a ∧ (t.t1 : Int) = 10 * b ∧
      0 ≤ a ∧ 0 ≤ b ∧ ((t.t0 ≤ t.t1) ↔ a ≤ b)) ∧
    (0 ≤ a → 0 ≤ b →
      tokenTiming a b text = some ⟨(10 * a).toNat, (10 * b).toNat, text⟩) := by
  constructor
  · intro t ht
    simp only [tokenTiming] at ht
    split at ht
    case isTrue hpos =>
      obtain ⟨h1, h2⟩ := hpos
      cases ht
      refine ⟨by simp; omega, by simp; omega, by omega, by omega, by simp; omega⟩
    case isFalse => exact absurd ht (by simp)
  · intro ha hb
    simp only [tokenTiming]
    rw [if_pos ⟨by omega, by omega⟩]

/-- Closed instance of C9: ordered non-negative ticks `(3, 4)` become
`Timing(30, 40)`, read off the scaling theorem. -/
theorem c9_token_timing_witness :
    tokenTiming 3 4 "tok" = some ⟨30, 40, "tok"⟩ :=
  (c9_token_timing_scaling 3 4 "tok").2 (by decide) (by decide)

/-- C10.  Trailing colon-separated segments are silently ignored: for the
greedy kind the third segment is never pulled from the split iterator, so
`greedy:N:r` parses to `Greedy{best_of = N}` for every `r` (even one that is
itself no number); for the beam kind everything after the third (patience)
segment is ignored. -/
theorem c10_trailing_segments_ignored
    (mseg pseg rseg : List Char) (n : Int) (q : ℚ) :
    ((':' : Char) ∉ mseg → parseI32 mseg = some n → 1 ≤ n →
      parseStrategyChars ("greedy".data ++ ':' :: (mseg ++ ':' :: rseg)) =
        .ok (.greedy n)) ∧
    ((':' : Char) ∉ mseg → (':' : Char) ∉ pseg → parseI32 mseg = some n →
      1 ≤ n → parseF32 pseg = some q →
      parseStrategyChars
          ("beam".data ++ ':' :: (mseg ++ ':' :: (pseg ++ ':' :: rseg))) =
        .ok (.beam n q)) := by
  constructor
  · intro hm hp hn
    rw [parseStrategyChars, splitOnColon_append "greedy".data _ (by decide),
      splitOnColon_append mseg rseg hm]
    simp only [List.head?, hp, List.drop]
    simp [parseStrategyKind, show ¬n < 1 by omega]
  · intro hm hpad hp hn hq
    rw [parseStrategyChars, splitOnColon_append "beam".data _ (by decide),
      splitOnColon_append mseg _ hm, splitOnColon_append pseg rseg hpad]
    simp only [List.head?, hp, List.drop]
    have hne : ¬("beam".data = "greedy".data) := by decide
    simp [parseStrategyKind, hne, hq, show ¬n < 1 by omega]

/-- Closed instance of C10: `greedy:3:junk` and `beam:5:0:x:y` parse to
`Greedy{3}` and `Beam{5, 0}`, read off the trailing-segment theorem. -/
theorem c10_trailing_segments_witness :
    parseStrategyChars ("greedy".data ++ ':' :: ("3".data ++ ':' :: "junk".data)) =
      .ok (.greedy 3) ∧
    parseStrategyChars
        ("beam".data ++ ':' :: ("5".data ++ ':' :: ("0".data ++ ':' :: "x:y".data))) =
      .ok (.beam 5 0) :=
  ⟨(c10_trailing_segments_ignored "3".data [] "junk".data 3 0).1
     (by decide) (by decide) (by decide),
   (c10_trailing_segments_ignored "5".data "0".data "x:y".data 5 0).2
     (by decide) (by decide) (by decide) (by decide) (by decide)⟩
